import Mathlib

/-!
Verification of `go-http-commons` middlewares against its specification.

The Go sources embedded here:
  * `respInterceptor` (`middlewares` package): a decorating `http.ResponseWriter`
    that records status code and cumulative byte count.
  * `interceptorBuilderImpl`: builder for the generic before/after-callback
    interceptor middleware.
  * `loggingBuilderImpl` (`middlewares/logging.go`): builder for the structured
    request/response logging middleware.

Modelling conventions:
  * The real response sink (`delegate http.ResponseWriter`) is external
    nondeterminism: each body write carries the delegate's returned byte count
    and error as oracle inputs; each forwarded call is recorded in a trace of
    `DelegateOp` so that "forwarded / not forwarded" claims are statable.
  * Go `int` is modelled as `Int`; a byte buffer is abstracted to its length.
  * Errors are abstract strings (`Option String`; `none` = nil error).
  * Handlers and callbacks are modelled by their observable effects: the
    wrapped handler's interaction with its sink is a list of `WEvent`s, and a
    middleware invocation produces a trace of actions.
-/

/-- Model of the Go constant `http.StatusOK`. -/
def statusOK : Int := 200

/-- Observable state of `respInterceptor` (the `delegate` and `req` fields are
external references modelled outside the structure; the unused
`sendStatus sync.Once` field has no observable state). Zero value matches
`&respInterceptor{delegate: w, req: r}`. -/
structure RespInterceptor where
  wroteHeader : Bool
  written : Int
  status : Int
deriving Repr, DecidableEq

/-- Fresh interceptor, as allocated by the middlewares: all fields zero. -/
def RespInterceptor.init : RespInterceptor :=
  { wroteHeader := false, written := 0, status := 0 }

/-- `func (i *respInterceptor) Write(bytes []byte) (int, error)`:
sets `wroteHeader`, forwards to the delegate, adds the delegate's returned
`size` to `written`, and returns the delegate's `(size, err)` unchanged.
`blen` is the length of `bytes`; `dsize`/`derr` are the delegate's return. -/
def RespInterceptor.write (i : RespInterceptor) (blen : Nat) (dsize : Int)
    (derr : Option String) : RespInterceptor × Int × Option String :=
  let i1 : RespInterceptor := { i with wroteHeader := true }
  let _ := blen
  ({ i1 with written := i1.written + dsize }, dsize, derr)

/-- `func (i *respInterceptor) WriteHeader(statusCode int)`:
if `wroteHeader` is still false, forwards `statusCode` to the delegate and
records it in `status`. Note the source does NOT set `wroteHeader` here.
The returned `Bool` reports whether the call was forwarded to the delegate. -/
def RespInterceptor.writeHeader (i : RespInterceptor) (statusCode : Int) :
    RespInterceptor × Bool :=
  if !i.wroteHeader then ({ i with status := statusCode }, true) else (i, false)

/-- `func (i *respInterceptor) Written() int`. -/
def RespInterceptor.writtenFn (i : RespInterceptor) : Int :=
  i.written

/-- `func (i *respInterceptor) Status() int`: lazily defaults `status` to
`http.StatusOK` when it is still 0, then returns it (state-passing form). -/
def RespInterceptor.statusFn (i : RespInterceptor) : RespInterceptor × Int :=
  let i1 := if i.status = 0 then { i with status := statusOK } else i
  (i1, i1.status)

/-- The value `Status()` returns. -/
def RespInterceptor.statusVal (i : RespInterceptor) : Int :=
  (i.statusFn).2

/-- One call a handler makes on its response sink. For a body write, `blen` is
the buffer length and `dsize`/`derr` are what the real sink returns for it. -/
inductive WEvent where
  | write (blen : Nat) (dsize : Int) (derr : Option String)
  | writeHeader (code : Int)
deriving Repr, DecidableEq

/-- A call the interceptor forwards to the real sink. -/
inductive DelegateOp where
  | write (blen : Nat)
  | writeHeader (code : Int)
deriving Repr, DecidableEq

/-- One sink call processed by `respInterceptor`, returning the new state and
the calls forwarded to the delegate. -/
def RespInterceptor.step (i : RespInterceptor) :
    WEvent → RespInterceptor × List DelegateOp
  | .write blen dsize derr => ((i.write blen dsize derr).1, [.write blen])
  | .writeHeader code =>
      let p := i.writeHeader code
      (p.1, if p.2 then [.writeHeader code] else [])

/-- Run a sequence of sink calls through the interceptor, collecting the
delegate trace. -/
def runTrace : RespInterceptor → List WEvent → RespInterceptor × List DelegateOp
  | i, [] => (i, [])
  | i, e :: es =>
      let p := i.step e
      let q := runTrace p.1 es
      (q.1, p.2 ++ q.2)

/-- Final interceptor state after a handler performs `es` on a fresh
interceptor. -/
def runInterceptor (es : List WEvent) : RespInterceptor :=
  (runTrace RespInterceptor.init es).1

/-- Sum of the delegate-returned sizes of all body writes in `es`. -/
def sumWriteSizes : List WEvent → Int
  | [] => 0
  | .write _ dsize _ :: es => dsize + sumWriteSizes es
  | .writeHeader _ :: es => sumWriteSizes es

/-- Buffer lengths of the body writes in `es`, in order. -/
def byteLengths : List WEvent → List Nat
  | [] => []
  | .write blen _ _ :: es => blen :: byteLengths es
  | .writeHeader _ :: es => byteLengths es

/-- Every body write in `es` fully succeeded: the sink returned the buffer
length. -/
def writesFull : List WEvent → Bool
  | [] => true
  | .write blen dsize _ :: es => (dsize == Int.ofNat blen) && writesFull es
  | .writeHeader _ :: es => writesFull es

/-- No `WriteHeader` call occurs in `es`. -/
def noHeaderWrites : List WEvent → Bool
  | [] => true
  | .write _ _ _ :: es => noHeaderWrites es
  | .writeHeader _ :: _ => false

theorem runTrace_written (es : List WEvent) :
    ∀ i : RespInterceptor, (runTrace i es).1.written = i.written + sumWriteSizes es := by
  induction es with
  | nil => intro i; simp [runTrace, sumWriteSizes]
  | cons e es ih =>
      intro i
      cases e with
      | write blen dsize derr =>
          simp [runTrace, RespInterceptor.step, RespInterceptor.write,
            sumWriteSizes, ih]
          ring
      | writeHeader code =>
          simp only [runTrace, RespInterceptor.step, RespInterceptor.writeHeader,
            sumWriteSizes]
          by_cases h : i.wroteHeader <;> simp [h, ih]

theorem runTrace_status_const (es : List WEvent) :
    ∀ i : RespInterceptor, noHeaderWrites es = true →
      (runTrace i es).1.status = i.status := by
  induction es with
  | nil => intro i _; simp [runTrace]
  | cons e es ih =>
      intro i h
      cases e with
      | write blen dsize derr =>
          simp only [noHeaderWrites] at h
          simp [runTrace, RespInterceptor.step, RespInterceptor.write, ih _ h]
      | writeHeader code =>
          simp [noHeaderWrites] at h

theorem sumWriteSizes_of_full (es : List WEvent) (h : writesFull es = true) :
    sumWriteSizes es = Int.ofNat (byteLengths es).sum := by
  induction es with
  | nil => simp [sumWriteSizes, byteLengths]
  | cons e es ih =>
      cases e with
      | write blen dsize derr =>
          simp only [writesFull, Bool.and_eq_true, beq_iff_eq] at h
          simp [sumWriteSizes, byteLengths, h.1, ih h.2]
      | writeHeader code =>
          simp only [writesFull] at h
          simp [sumWriteSizes, byteLengths, ih h]

/-!  Generic interceptor middleware (`interceptorBuilderImpl`).

Callbacks are Go closures whose only observable property here is their
identity and the arguments they receive, so `bcb`/`cb` are modelled as
identifiers (0 = the no-op defaults installed by `NewInterceptorBuilder`).
The filter predicate's boolean result drives control flow, so it stays a
function. `Build()` returns a closure over the receiver pointer `i`, hence a
built handler reads the builder's fields as they are at request time; the
session semantics below encodes exactly that. -/

/-- Fields of `interceptorBuilderImpl`. -/
structure InterceptorBuilderState (Req : Type) where
  filterFn : Req → Bool
  bcb : Nat
  cb : Nat

/-- `NewInterceptorBuilder`: filter always true, no-op callbacks (id 0). -/
def newInterceptorBuilderState (Req : Type) : InterceptorBuilderState Req :=
  { filterFn := fun _ => true, bcb := 0, cb := 0 }

/-- A fluent setter call on `interceptorBuilderImpl`. -/
inductive IntBuilderOp (Req : Type) where
  | withRequestFilter (f : Req → Bool)
  | withBeforeCallback (id : Nat)
  | withCallback (id : Nat)

/-- Field assignment performed by each setter. -/
def applyIntOp {Req : Type} (b : InterceptorBuilderState Req) :
    IntBuilderOp Req → InterceptorBuilderState Req
  | .withRequestFilter f => { b with filterFn := f }
  | .withBeforeCallback id => { b with bcb := id }
  | .withCallback id => { b with cb := id }

/-- Setter calls applied in order (each setter returns the same receiver). -/
def applyIntOps {Req : Type} (b : InterceptorBuilderState Req)
    (ops : List (IntBuilderOp Req)) : InterceptorBuilderState Req :=
  ops.foldl applyIntOp b

/-- Observable actions of one invocation of the built interceptor handler. -/
inductive MwAction (Req : Type) where
  | beforeCb (id : Nat) (r : Req)
  | serveIntercepted (r : Req)
  | afterCb (id : Nat) (status : Int) (written : Int)
  | serveRaw (r : Req)
deriving Repr, DecidableEq

/-- Body of the handler returned by `interceptorBuilderImpl.Build`, for one
request `r` whose wrapped handler performs sink calls `ev`:
if `filterFn(r)` holds, invoke the before-callback, serve `next` against a
fresh `respInterceptor`, then invoke the after-callback on the populated
interceptor; otherwise serve `next` directly on the raw sink. -/
def interceptorHandle {Req : Type} (b : InterceptorBuilderState Req) (r : Req)
    (ev : List WEvent) : List (MwAction Req) :=
  if b.filterFn r then
    let ir := runInterceptor ev
    [.beforeCb b.bcb r, .serveIntercepted r, .afterCb b.cb ir.statusVal ir.written]
  else
    [.serveRaw r]

/-- One builder session: setters `ops1`, then `Build()`, then setters `ops2`,
then one request. Because `Build()`'s closure captures the pointer `i` and
reads `i.filterFn`, `i.bcb`, `i.cb` at request time, the invocation sees the
state after ALL setters, including the post-build ones. -/
def interceptorSessionRun {Req : Type} (ops1 ops2 : List (IntBuilderOp Req))
    (r : Req) (ev : List WEvent) : List (MwAction Req) :=
  interceptorHandle (applyIntOps (applyIntOps (newInterceptorBuilderState Req) ops1) ops2) r ev

/-!  Logging middleware (`middlewares/logging.go`). -/

/-- The request data the bundled extractors read. Headers are a list of
key/value pairs; `headerGet` models `http.Header.Get` (first match or ""). -/
structure HttpRequest where
  method : String
  path : String
  contentLength : Int
  headers : List (String × String)
deriving Repr, DecidableEq

/-- Model of `http.Header.Get`. -/
def headerGet (hs : List (String × String)) (k : String) : String :=
  match hs.find? (fun p => p.1 == k) with
  | some p => p.2
  | none => ""

/-- A structured log field value (`any` in slog calls). -/
inductive LogValue where
  | str (s : String)
  | int (i : Int)
deriving Repr, DecidableEq

/-- `ReqInfoExtractorFn func(req *http.Request) (string, interface\x7b\x7d)`. -/
abbrev ReqInfoExtractorFn := HttpRequest → String × LogValue

/-- Read-only view of `InterceptedResponse` as consumed by response
extractors: `status` is the value `Status()` returns, `written` the value
`Written()` returns. -/
structure InterceptedView where
  status : Int
  written : Int
  req : HttpRequest
deriving Repr, DecidableEq

/-- `RespInfoExtractorFn func(resp InterceptedResponse) (string, interface\x7b\x7d)`. -/
abbrev RespInfoExtractorFn := InterceptedView → String × LogValue

/-- `MethodReqInfoExtractor()`. -/
def methodReqInfoExtractor : ReqInfoExtractorFn :=
  fun r => ("method", .str r.method)

/-- `PathReqInfoExtractor()`. -/
def pathReqInfoExtractor : ReqInfoExtractorFn :=
  fun r => ("path", .str r.path)

/-- `SizeReqInfoExtractor()`. -/
def sizeReqInfoExtractor : ReqInfoExtractorFn :=
  fun r => ("size", .int r.contentLength)

/-- `HeaderReqInfoExtractor(hdr)`. -/
def headerReqInfoExtractor (hdr : String) : ReqInfoExtractorFn :=
  fun r => (hdr, .str (headerGet r.headers hdr))

/-- `DefaultReqInfoExtractors`. -/
def defaultReqInfoExtractors : List ReqInfoExtractorFn :=
  [methodReqInfoExtractor, pathReqInfoExtractor, sizeReqInfoExtractor]

/-- `StatusRespInfoExtractor()`. -/
def statusRespInfoExtractor : RespInfoExtractorFn :=
  fun v => ("status", .int v.status)

/-- `SizeRespInfoExtractor()`. -/
def sizeRespInfoExtractor : RespInfoExtractorFn :=
  fun v => ("body_size", .int v.written)

/-- `DefaultRespInfoExtractors`. -/
def defaultRespInfoExtractors : List RespInfoExtractorFn :=
  [statusRespInfoExtractor, sizeRespInfoExtractor]

/-- `DefHttpReqMessage`. -/
def defHttpReqMessage : String := "http request"

/-- `DefHttpRespMessage`. -/
def defHttpRespMessage : String := "http response"

/-- Model of `slog.LevelInfo` (slog levels are ints; info = 0). -/
def levelInfo : Int := 0

/-- Fields of `loggingBuilderImpl`. The `*slog.Logger` is modelled by an
identifier `l` (0 = `slog.Default()`); a Go slice of extractors by the list
of its elements. -/
structure LoggingBuilderState where
  l : Nat
  lvl : Int
  reqLog : Bool
  respLog : Bool
  reqMsg : String
  respMsg : String
  reqInfoFns : List ReqInfoExtractorFn
  respInfoFns : List RespInfoExtractorFn

/-- `loggingBuilderImpl.clone`: a fresh struct with every scalar field copied
and both extractor slices copied element-wise (`make` + `copy`); a copied
slice shares no backing store with the builder, which the list-value model
reflects by rebuilding the lists. -/
def LoggingBuilderState.clone (b : LoggingBuilderState) : LoggingBuilderState :=
  { l := b.l, lvl := b.lvl, reqLog := b.reqLog, respLog := b.respLog,
    reqMsg := b.reqMsg, respMsg := b.respMsg,
    reqInfoFns := b.reqInfoFns.map id,
    respInfoFns := b.respInfoFns.map id }

/-- `NewLoggingBuilder()` defaults. -/
def newLoggingBuilderState : LoggingBuilderState :=
  { l := 0, lvl := levelInfo, reqLog := true, respLog := true,
    reqMsg := defHttpReqMessage, respMsg := defHttpRespMessage,
    reqInfoFns := defaultReqInfoExtractors,
    respInfoFns := defaultRespInfoExtractors }

/-- A fluent setter call on `loggingBuilderImpl`. -/
inductive LogBuilderOp where
  | withLogger (id : Nat)
  | withLevel (lvl : Int)
  | withRequestMessage (m : String)
  | withResponseMessage (m : String)
  | disableResponseLog
  | disableRequestLog
  | clearRequestInfoExtractors
  | addRequestInfoExtractors (fns : List ReqInfoExtractorFn)
  | clearResponseInfoExtractors
  | addResponseInfoExtractors (fns : List RespInfoExtractorFn)

/-- Field assignment performed by each setter (`append` on a slice the
builder owns extends the list; `Clear...` installs a fresh empty slice). -/
def applyLogOp (b : LoggingBuilderState) : LogBuilderOp → LoggingBuilderState
  | .withLogger id => { b with l := id }
  | .withLevel lv => { b with lvl := lv }
  | .withRequestMessage m => { b with reqMsg := m }
  | .withResponseMessage m => { b with respMsg := m }
  | .disableResponseLog => { b with respLog := false }
  | .disableRequestLog => { b with reqLog := false }
  | .clearRequestInfoExtractors => { b with reqInfoFns := [] }
  | .addRequestInfoExtractors fns => { b with reqInfoFns := b.reqInfoFns ++ fns }
  | .clearResponseInfoExtractors => { b with respInfoFns := [] }
  | .addResponseInfoExtractors fns => { b with respInfoFns := b.respInfoFns ++ fns }

/-- Setter calls applied in order. -/
def applyLogOps (b : LoggingBuilderState) (ops : List LogBuilderOp) :
    LoggingBuilderState :=
  ops.foldl applyLogOp b

/-- One `logger.Log(ctx, lvl, msg, args...)` call: logger identity, level,
message, and the flattened variadic key/value arguments in order. -/
structure LogEntry where
  logger : Nat
  lvl : Int
  msg : String
  args : List (Sum String LogValue)
deriving Repr, DecidableEq

/-- Observable actions of one invocation of the built logging handler. -/
inductive LogMwAction where
  | logEntry (e : LogEntry)
  | serveIntercepted
  | serveRaw
deriving Repr, DecidableEq

/-- The `args` slice built by the extractor loop: for each extractor result
`(k, v)` the loop appends `k` then `v`. -/
def flattenArgs : List (String × LogValue) → List (Sum String LogValue)
  | [] => []
  | p :: rest => Sum.inl p.1 :: Sum.inr p.2 :: flattenArgs rest

/-- Request-log step of the built handler: when `reqLog`, evaluate every
request extractor in list order on `r` and emit one log call. -/
def reqPhase (c : LoggingBuilderState) (r : HttpRequest) : List LogMwAction :=
  if c.reqLog then
    [.logEntry { logger := c.l, lvl := c.lvl, msg := c.reqMsg,
                 args := flattenArgs (c.reqInfoFns.map (fun f => f r)) }]
  else []

/-- The `InterceptedResponse` view the response extractors see after the
wrapped handler performed `ev` on the fresh interceptor. -/
def interceptedView (ev : List WEvent) (r : HttpRequest) : InterceptedView :=
  let ir := runInterceptor ev
  { status := ir.statusVal, written := ir.written, req := r }

/-- Response step of the built handler: when `respLog`, serve `next` against
a fresh interceptor, evaluate every response extractor in list order, and
emit one log call; otherwise serve `next` on the raw sink. -/
def respPhase (c : LoggingBuilderState) (r : HttpRequest) (ev : List WEvent) :
    List LogMwAction :=
  if c.respLog then
    [.serveIntercepted,
     .logEntry { logger := c.l, lvl := c.lvl, msg := c.respMsg,
                 args := flattenArgs (c.respInfoFns.map (fun f => f (interceptedView ev r))) }]
  else [.serveRaw]

/-- Body of the handler returned by `loggingBuilderImpl.Build`, closed over
the snapshot `c`, for one request `r` whose wrapped handler performs `ev`. -/
def loggingHandle (c : LoggingBuilderState) (r : HttpRequest) (ev : List WEvent) :
    List LogMwAction :=
  reqPhase c r ++ respPhase c r ev

/-- `loggingBuilderImpl.Build` first takes the snapshot `c := l.clone()`;
the returned closure references only `c`. -/
def loggingBuild (b : LoggingBuilderState) : LoggingBuilderState :=
  b.clone

/-- One builder session: setters `ops1`, then `Build()`, then setters `ops2`
applied to the (still live) builder, then one request. The built closure
references only the clone taken at build time, so the post-build setters
`ops2` do not enter the invocation. -/
def loggingSessionRun (ops1 ops2 : List LogBuilderOp) (r : HttpRequest)
    (ev : List WEvent) : List LogMwAction :=
  let b1 := applyLogOps newLoggingBuilderState ops1
  let _b2 := applyLogOps b1 ops2
  loggingHandle (loggingBuild b1) r ev

/-!  Claim theorems. -/

/-- Claim C4: for every sequence of sink calls whose body writes fully
succeed with buffer lengths `b1..bn`, the final `Written()` value is
`b1 + ... + bn`, with interleaved `WriteHeader` calls contributing nothing. -/
theorem written_sum_of_write_lengths (es : List WEvent) (h : writesFull es = true) :
    (runInterceptor es).writtenFn = Int.ofNat (byteLengths es).sum := by
  unfold runInterceptor RespInterceptor.writtenFn
  rw [runTrace_written]
  simp [RespInterceptor.init, sumWriteSizes_of_full es h]

/-- Witness for C4: writes of 2 and 3 bytes interleaved with two header
writes give `Written() = 5`. -/
theorem written_sum_of_write_lengths_witness :
    writesFull [WEvent.writeHeader 201, WEvent.write 2 2 none,
      WEvent.writeHeader 500, WEvent.write 3 3 none] = true
    ∧ (runInterceptor [WEvent.writeHeader 201, WEvent.write 2 2 none,
        WEvent.writeHeader 500, WEvent.write 3 3 none]).writtenFn = 5 :=
  ⟨by decide,
   (written_sum_of_write_lengths
      [WEvent.writeHeader 201, WEvent.write 2 2 none,
       WEvent.writeHeader 500, WEvent.write 3 3 none] (by decide)).trans (by decide)⟩

/-- Claim C9: `Write` returns exactly the byte count and error the real sink
returned, and the (possibly partial) byte count is added to the cumulative
total even when the error is non-nil. -/
theorem write_forwards_result_and_accumulates (i : RespInterceptor) (blen : Nat)
    (dsize : Int) (derr : Option String) :
    (i.write blen dsize derr).2 = (dsize, derr)
    ∧ ((i.write blen dsize derr).1).written = i.written + dsize :=
  ⟨rfl, rfl⟩

/-- Claim C5: if `WriteHeader` is never called, `Status()` returns the
default OK code 200, however many body writes occurred, and `Written()` is
the sum of the delegate-returned write sizes. -/
theorem status_default_ok_when_no_header_write (es : List WEvent)
    (h : noHeaderWrites es = true) :
    (runInterceptor es).statusVal = statusOK
    ∧ (runInterceptor es).writtenFn = sumWriteSizes es := by
  constructor
  · have hs : (runTrace RespInterceptor.init es).1.status = 0 := by
      rw [runTrace_status_const es _ h]
      rfl
    unfold runInterceptor RespInterceptor.statusVal RespInterceptor.statusFn
    simp [hs]
  · unfold runInterceptor RespInterceptor.writtenFn
    rw [runTrace_written]
    simp [RespInterceptor.init]

/-- Witness for C5: the spec scenario — writes "ab" then "cde", no explicit
header write — yields `Status() = 200` and `Written() = 5`. -/
theorem status_default_ok_when_no_header_write_witness :
    noHeaderWrites [WEvent.write 2 2 none, WEvent.write 3 3 none] = true
    ∧ (runInterceptor [WEvent.write 2 2 none, WEvent.write 3 3 none]).statusVal = 200
    ∧ (runInterceptor [WEvent.write 2 2 none, WEvent.write 3 3 none]).writtenFn = 5 :=
  ⟨by decide,
   (status_default_ok_when_no_header_write
      [WEvent.write 2 2 none, WEvent.write 3 3 none] (by decide)).1,
   ((status_default_ok_when_no_header_write
      [WEvent.write 2 2 none, WEvent.write 3 3 none] (by decide)).2).trans (by decide)⟩

/-- Claim C1 (code bug): evaluation at the failing input. Two `WriteHeader`
calls with no intervening body write: because the source never sets
`wroteHeader` inside `WriteHeader`, the second call IS forwarded to the real
sink and overwrites the recorded status, so `Status()` returns 404, not the
first value 201 that the claim (a second call is a no-op) requires. -/
theorem writeHeader_second_call_overwrites_status :
    runTrace RespInterceptor.init [WEvent.writeHeader 201, WEvent.writeHeader 404]
      = ({ wroteHeader := false, written := 0, status := 404 },
         [DelegateOp.writeHeader 201, DelegateOp.writeHeader 404])
    ∧ (runInterceptor [WEvent.writeHeader 201, WEvent.writeHeader 404]).statusVal = 404 := by
  constructor <;> decide

/-- Claim C6: whenever the filter predicate evaluates to false, the built
interceptor middleware serves the wrapped handler on the raw sink and does
nothing else: no before-callback, no after-callback, no interceptor. -/
theorem filter_false_passthrough {Req : Type} (b : InterceptorBuilderState Req)
    (r : Req) (ev : List WEvent) (h : b.filterFn r = false) :
    interceptorHandle b r ev = [MwAction.serveRaw r] := by
  simp [interceptorHandle, h]

/-- Witness for C6: an always-false filter on a concrete request. -/
theorem filter_false_passthrough_witness :
    (InterceptorBuilderState.mk (fun _ => false) 0 0 : InterceptorBuilderState Nat).filterFn 7 = false
    ∧ interceptorHandle (InterceptorBuilderState.mk (fun _ => false) 0 0 :
        InterceptorBuilderState Nat) 7 [] = [MwAction.serveRaw 7] :=
  ⟨rfl, filter_false_passthrough _ 7 [] rfl⟩

/-- Counterexample to claim C2 as stated: build with the default
configuration (filter always true), then call `WithRequestFilter` with an
always-false filter; the already-built handler's behavior on request 0 is
NOT the pre-mutation behavior, because `Build()`'s closure reads the live
builder fields at request time. -/
theorem interceptor_build_not_snapshot_cex :
    ¬ (interceptorSessionRun [] [IntBuilderOp.withRequestFilter (fun _ => false)] (0 : Nat) []
       = interceptorSessionRun [] [] (0 : Nat) []) := by
  decide

/-- Claim C2 (amended): the interceptor builder's `Build()` does NOT
snapshot: a built handler's invocation uses the builder state current at
request time (after all post-build setters), and whenever a post-build
`WithRequestFilter` changes the filter's verdict on a request, the built
handler's behavior on that request changes. -/
theorem interceptor_build_reads_live_state {Req : Type}
    (ops1 ops2 : List (IntBuilderOp Req)) (r : Req) (ev : List WEvent) :
    interceptorSessionRun ops1 ops2 r ev
      = interceptorHandle
          (applyIntOps (applyIntOps (newInterceptorBuilderState Req) ops1) ops2) r ev
    ∧ ∀ (b : InterceptorBuilderState Req) (f : Req → Bool),
        f r ≠ b.filterFn r →
        interceptorHandle (applyIntOp b (IntBuilderOp.withRequestFilter f)) r ev
          ≠ interceptorHandle b r ev := by
  refine ⟨rfl, ?_⟩
  intro b f hf heq
  cases hfr : f r <;> cases hbr : b.filterFn r
  · exact hf (by rw [hfr, hbr])
  · simp [interceptorHandle, applyIntOp, hfr, hbr] at heq
  · simp [interceptorHandle, applyIntOp, hfr, hbr] at heq
  · exact hf (by rw [hfr, hbr])

/-- Witness for the amended C2: installing an always-false filter after
build changes the built handler's behavior on request 0. -/
theorem interceptor_build_reads_live_state_witness :
    interceptorHandle (applyIntOp (newInterceptorBuilderState Nat)
        (IntBuilderOp.withRequestFilter (fun _ => false))) 0 []
      ≠ interceptorHandle (newInterceptorBuilderState Nat) 0 [] :=
  (interceptor_build_reads_live_state [] [] 0 []).2 _ _ (by decide)

/-- Claim C3: `loggingBuilderImpl.Build` snapshots the configuration via
`clone`, so builder mutation after build (any setter sequence `ops2`) leaves
the previously built middleware's behavior unchanged; in particular, after a
post-build `WithRequestMessage "changed"` on a default builder, the built
handler still logs the request entry with the original default label. -/
theorem logging_build_snapshot_immutable (ops1 ops2 : List LogBuilderOp)
    (r : HttpRequest) (ev : List WEvent) :
    loggingSessionRun ops1 ops2 r ev = loggingSessionRun ops1 [] r ev
    ∧ (loggingSessionRun [] (LogBuilderOp.withRequestMessage "changed" :: ops2) r ev).head?
        = some (LogMwAction.logEntry
            { logger := 0, lvl := levelInfo, msg := defHttpReqMessage,
              args := flattenArgs (defaultReqInfoExtractors.map (fun f => f r)) }) := by
  constructor
  · rfl
  · simp [loggingSessionRun, loggingHandle, loggingBuild, LoggingBuilderState.clone,
      applyLogOps, newLoggingBuilderState, reqPhase]

/-- Claim C7: with request logging enabled and request extractor list
`[method, path]` in that order, the request-log step emits exactly one log
call whose argument list is exactly `method, <value>, path, <value>`,
followed only by the response phase. -/
theorem request_log_field_order (c : LoggingBuilderState) (r : HttpRequest)
    (ev : List WEvent) (h1 : c.reqLog = true)
    (h2 : c.reqInfoFns = [methodReqInfoExtractor, pathReqInfoExtractor]) :
    loggingHandle c r ev
      = LogMwAction.logEntry
          { logger := c.l, lvl := c.lvl, msg := c.reqMsg,
            args := [Sum.inl "method", Sum.inr (LogValue.str r.method),
                     Sum.inl "path", Sum.inr (LogValue.str r.path)] }
        :: respPhase c r ev := by
  simp [loggingHandle, reqPhase, h1, h2, methodReqInfoExtractor,
    pathReqInfoExtractor, flattenArgs]

/-- Witness for C7: a `GET /health` request under extractors
`[method, path]`. -/
theorem request_log_field_order_witness :
    ({ newLoggingBuilderState with
        reqInfoFns := [methodReqInfoExtractor, pathReqInfoExtractor] }).reqLog = true
    ∧ ({ newLoggingBuilderState with
        reqInfoFns := [methodReqInfoExtractor, pathReqInfoExtractor] }).reqInfoFns
        = [methodReqInfoExtractor, pathReqInfoExtractor]
    ∧ loggingHandle
        { newLoggingBuilderState with
          reqInfoFns := [methodReqInfoExtractor, pathReqInfoExtractor] }
        { method := "GET", path := "/health", contentLength := 0, headers := [] } []
      = LogMwAction.logEntry
          { logger := 0, lvl := levelInfo, msg := defHttpReqMessage,
            args := [Sum.inl "method", Sum.inr (LogValue.str "GET"),
                     Sum.inl "path", Sum.inr (LogValue.str "/health")] }
        :: respPhase
            { newLoggingBuilderState with
              reqInfoFns := [methodReqInfoExtractor, pathReqInfoExtractor] }
            { method := "GET", path := "/health", contentLength := 0, headers := [] } [] :=
  ⟨rfl, rfl,
   request_log_field_order
     { newLoggingBuilderState with
       reqInfoFns := [methodReqInfoExtractor, pathReqInfoExtractor] }
     { method := "GET", path := "/health", contentLength := 0, headers := [] } [] rfl rfl⟩

/-- Claim C8: with response logging disabled, the built handler serves the
wrapped handler on the raw sink, emits no response entry, never consults the
response extractors (its behavior is independent of them), and — when
request logging is enabled — still emits the request entry. -/
theorem response_log_disabled_no_interception (c : LoggingBuilderState)
    (r : HttpRequest) (ev : List WEvent) (h : c.respLog = false) :
    loggingHandle c r ev = reqPhase c r ++ [LogMwAction.serveRaw]
    ∧ (∀ fns : List RespInfoExtractorFn,
        loggingHandle { c with respInfoFns := fns } r ev = loggingHandle c r ev)
    ∧ (c.reqLog = true →
        loggingHandle c r ev
          = [LogMwAction.logEntry
               { logger := c.l, lvl := c.lvl, msg := c.reqMsg,
                 args := flattenArgs (c.reqInfoFns.map (fun f => f r)) },
             LogMwAction.serveRaw]) := by
  refine ⟨?_, ?_, ?_⟩
  · simp [loggingHandle, respPhase, h]
  · intro fns
    simp [loggingHandle, respPhase, reqPhase, h]
  · intro hreq
    simp [loggingHandle, respPhase, reqPhase, h, hreq]

/-- Witness for C8: default builder with `DisableResponseLog()` applied, on
a concrete request; independence instantiated at the default response
extractor list versus the empty one. -/
theorem response_log_disabled_no_interception_witness :
    (applyLogOp newLoggingBuilderState LogBuilderOp.disableResponseLog).respLog = false
    ∧ loggingHandle (applyLogOp newLoggingBuilderState LogBuilderOp.disableResponseLog)
        { method := "GET", path := "/health", contentLength := 0, headers := [] } []
      = reqPhase (applyLogOp newLoggingBuilderState LogBuilderOp.disableResponseLog)
          { method := "GET", path := "/health", contentLength := 0, headers := [] }
        ++ [LogMwAction.serveRaw]
    ∧ loggingHandle
        { applyLogOp newLoggingBuilderState LogBuilderOp.disableResponseLog with
          respInfoFns := [] }
        { method := "GET", path := "/health", contentLength := 0, headers := [] } []
      = loggingHandle (applyLogOp newLoggingBuilderState LogBuilderOp.disableResponseLog)
          { method := "GET", path := "/health", contentLength := 0, headers := [] } []
    ∧ loggingHandle (applyLogOp newLoggingBuilderState LogBuilderOp.disableResponseLog)
        { method := "GET", path := "/health", contentLength := 0, headers := [] } []
      = [LogMwAction.logEntry
           { logger := 0, lvl := levelInfo, msg := defHttpReqMessage,
             args := flattenArgs (defaultReqInfoExtractors.map
               (fun f => f { method := "GET", path := "/health",
                             contentLength := 0, headers := [] })) },
         LogMwAction.serveRaw] :=
  ⟨rfl,
   (response_log_disabled_no_interception
      (applyLogOp newLoggingBuilderState LogBuilderOp.disableResponseLog)
      { method := "GET", path := "/health", contentLength := 0, headers := [] } [] rfl).1,
   (response_log_disabled_no_interception
      (applyLogOp newLoggingBuilderState LogBuilderOp.disableResponseLog)
      { method := "GET", path := "/health", contentLength := 0, headers := [] } [] rfl).2.1 [],
   (response_log_disabled_no_interception
      (applyLogOp newLoggingBuilderState LogBuilderOp.disableResponseLog)
      { method := "GET", path := "/health", contentLength := 0, headers := [] } [] rfl).2.2 rfl⟩

/-- Claim C10: with request logging enabled and an empty request extractor
list, the built handler still emits exactly one request entry with the
configured message and level and an empty argument list. -/
theorem request_log_empty_extractor_list (c : LoggingBuilderState)
    (r : HttpRequest) (ev : List WEvent) (h1 : c.reqLog = true)
    (h2 : c.reqInfoFns = []) :
    loggingHandle c r ev
      = LogMwAction.logEntry
          { logger := c.l, lvl := c.lvl, msg := c.reqMsg, args := [] }
        :: respPhase c r ev := by
  simp [loggingHandle, reqPhase, h1, h2, flattenArgs]

/-- Witness for C10: default builder with `ClearRequestInfoExtractors()`. -/
theorem request_log_empty_extractor_list_witness :
    (applyLogOp newLoggingBuilderState LogBuilderOp.clearRequestInfoExtractors).reqLog = true
    ∧ (applyLogOp newLoggingBuilderState LogBuilderOp.clearRequestInfoExtractors).reqInfoFns = []
    ∧ loggingHandle (applyLogOp newLoggingBuilderState LogBuilderOp.clearRequestInfoExtractors)
        { method := "GET", path := "/health", contentLength := 0, headers := [] } []
      = LogMwAction.logEntry
          { logger := 0, lvl := levelInfo, msg := defHttpReqMessage, args := [] }
        :: respPhase (applyLogOp newLoggingBuilderState LogBuilderOp.clearRequestInfoExtractors)
            { method := "GET", path := "/health", contentLength := 0, headers := [] } [] :=
  ⟨rfl, rfl,
   request_log_empty_extractor_list
     (applyLogOp newLoggingBuilderState LogBuilderOp.clearRequestInfoExtractors)
     { method := "GET", path := "/health", contentLength := 0, headers := [] } [] rfl rfl⟩
